import Mathlib

/-!
Verification of the library API's authentication flow (registration, email
verification, token issuance) against its natural-language specification.

The embedding follows `UsersService` (user creation, email-verification token
generation and verification, signing-secret resolution) and the data model of
the Prisma schema. External collaborators that the repository only calls —
the `jsonwebtoken` library (the Token Issuer) and the mail/orchestration glue —
are modelled from the specification, and are marked as such in their doc
comments.
-/

set_option autoImplicit false

namespace Library

/-- Role enumeration from the Prisma schema (`enum Role { user admin }`). -/
inductive Role where
  | user
  | admin
  deriving Repr, DecidableEq

/-- The `User` record of the Prisma schema, restricted to the fields the
authentication flow reads or writes (`id`, `email`, `username`, `role`,
`password`, `emailIsVerified`, `refreshToken`). -/
structure User where
  id : String
  email : String
  username : String
  role : Role
  password : String
  emailIsVerified : Bool
  refreshToken : Option String
  deriving Repr, DecidableEq

/-- The Credential Store state: the collection of persisted `User` records
(the `users` collection behind `prisma.user`). -/
abbrev Store := List User

/-- The registration request body (`CreateUserDto`): email, username, password. -/
structure CreateUserDto where
  email : String
  username : String
  password : String
  deriving Repr, DecidableEq

/-- The typed failures the service throws: `BadRequestException` and
`InternalServerErrorException`, each carrying its message string. -/
inductive AppError where
  | badRequest (msg : String)
  | internalServerError (msg : String)
  deriving Repr, DecidableEq

/-- The record returned by `create` after `const \x7b password, ...result \x7d`
destructuring: every `User` field except `password`. The absence of a
`password` field in this structure is the shape of the returned value. -/
structure UserNoPassword where
  id : String
  email : String
  username : String
  role : Role
  emailIsVerified : Bool
  refreshToken : Option String
  deriving Repr, DecidableEq

/-- Destructuring `const \x7b password, ...result \x7d = user`: drop the password field. -/
def stripPassword (u : User) : UserNoPassword :=
  { id := u.id, email := u.email, username := u.username, role := u.role
    emailIsVerified := u.emailIsVerified, refreshToken := u.refreshToken }

/-- Source `prisma.user.findUnique(\x7b where: \x7b email \x7d \x7d)`: the stored
user with the given email, if any. -/
def findByEmail (st : Store) (email : String) : Option User :=
  List.find? (fun u => u.email == email) st

/-- Source `UsersService.secret()`: return the configured `JWT_SECRET`; when it is
absent, throw `InternalServerErrorException` if `NODE_ENV` is `production`,
and return the fixed string `default-secret` otherwise. -/
def secretResolve (jwtSecret : Option String) (nodeEnv : Option String) :
    Except AppError String :=
  match jwtSecret with
  | some s => .ok s
  | none =>
    if nodeEnv ≠ some "production" then .ok "default-secret"
    else .error (.internalServerError "JWT secret is not set")

/-- Modelled from the spec: a signed JSON-claims token of the `jsonwebtoken`
library, which the repository only calls. A token records its claims payload,
its issue time `iat`, its expiry `exp` (seconds), and the secret it was signed
with (standing for the signature). -/
structure Token (α : Type) where
  claims : α
  iat : Nat
  exp : Nat
  secret : String
  deriving Repr, DecidableEq

/-- Modelled from the spec: the two verification failure kinds of the Token
Issuer — the expired sub-kind (`TokenExpiredError`) and the generic
invalid-token kind (`TokenInvalidError`: bad signature, malformed payload). -/
inductive VerifyError where
  | expired
  | invalid
  deriving Repr, DecidableEq

/-- Modelled from the spec: `jwt.sign(claims, secret, \x7b expiresIn: ttl \x7d)`
— `issue(claims, ttl)`: a token carrying the claims, issued now, expiring
`ttl` seconds later, signed with the secret. -/
def jwtSign {α : Type} (claims : α) (secret : String) (ttl : Nat) (now : Nat) :
    Token α :=
  { claims := claims, iat := now, exp := now + ttl, secret := secret }

/-- Modelled from the spec: `jwt.verify(token, secret)` — `verify(token)`.
A malformed input (`none`) or a signature that does not match the secret fails
with the generic invalid kind; a structurally valid, correctly signed token
past its expiry fails with the expired sub-kind; otherwise the claims are
returned. The signature is checked before the expiry. -/
def jwtVerify {α : Type} (tok : Option (Token α)) (secret : String) (now : Nat) :
    Except VerifyError α :=
  match tok with
  | none => .error .invalid
  | some t =>
    if t.secret ≠ secret then .error .invalid
    else if t.exp ≤ now then .error .expired
    else .ok t.claims

/-- Source `UsersService.create(data)` — `register`. Checks `findUnique` on the email
and throws `BadRequestException` with the duplicate-email message if a user
exists; otherwise hashes the password with `argon2.hash` (the abstract `hash`
parameter) and calls `prisma.user.create`, returning the created record minus
its password. The store's create is atomic (§5 of the spec): `persistOk`
injects its possible failure, which surfaces as `BadRequestException` with
message `Error creating user` and leaves the store as it was. `newId` stands
for the store-generated id. -/
def create (hash : String → String) (newId : String) (persistOk : Bool)
    (st : Store) (data : CreateUserDto) :
    Except AppError UserNoPassword × Store :=
  match findByEmail st data.email with
  | some _ =>
    (.error (.badRequest "The email address is already associated with an account."), st)
  | none =>
    let hashedPassword := hash data.password
    if persistOk then
      let u : User :=
        { id := newId, email := data.email, username := data.username
          role := .user, password := hashedPassword
          emailIsVerified := false, refreshToken := none }
      (.ok (stripPassword u), st ++ [u])
    else
      (.error (.badRequest "Error creating user"), st)

/-- The single-claim payload of the email-verification token:
`jwt.sign(\x7b email \x7d, ...)`. -/
structure EmailClaims where
  email : String
  deriving Repr, DecidableEq

/-- Source `UsersService.generateEmailVerificationToken(email)`: throws
`BadRequestException` with message `User not found` when `findUnique` returns
no user; otherwise signs the single claim `\x7b email \x7d` with the resolved
secret and a one-hour (3600 s) expiry. A failure of `secret()` propagates. -/
def generateEmailVerificationToken (jwtSecret nodeEnv : Option String)
    (st : Store) (email : String) (now : Nat) :
    Except AppError (Token EmailClaims) :=
  match findByEmail st email with
  | none => .error (.badRequest "User not found")
  | some _ =>
    match secretResolve jwtSecret nodeEnv with
    | .error e => .error e
    | .ok s => .ok (jwtSign { email := email } s 3600 now)

/-- Source `prisma.user.update(\x7b where: \x7b email \x7d, data:
\x7b emailIsVerified: true \x7d \x7d)`: set the flag on the stored user with
that (unique) email; `none` when no such user exists, in which case the store
throws and the state is unchanged. -/
def markVerified (email : String) (u : User) : User :=
  if u.email == email then { u with emailIsVerified := true } else u

/-- Companion to `markVerified`: the update applies `markVerified` to the
(unique) matching record and fails when no record matches. -/
def setVerified (st : Store) (email : String) : Option Store :=
  if List.any st (fun u => u.email == email) then
    some (List.map (markVerified email) st)
  else none

/-- Source `UsersService.verifyEmailVerificationToken(token)` — `verifyEmail`.
A missing or non-string token fails at the guard with `Invalid token`
(modelled by `none`, which `jwt.verify` also rejects). Inside the `try`,
any thrown error — a `secret()` failure, a verification failure, or a store
update failure — reaches the `catch`, which re-throws `Token has expired`
exactly when the error is `TokenExpiredError` and `Invalid token` otherwise.
On success the user's `emailIsVerified` flag is set and the message
`Email verified successfully` is returned. -/
def verifyEmailVerificationToken (jwtSecret nodeEnv : Option String)
    (st : Store) (token : Option (Token EmailClaims)) (now : Nat) :
    Except AppError String × Store :=
  match token with
  | none => (.error (.badRequest "Invalid token"), st)
  | some _ =>
    match secretResolve jwtSecret nodeEnv with
    | .error _ => (.error (.badRequest "Invalid token"), st)
    | .ok s =>
      match jwtVerify token s now with
      | .error .expired => (.error (.badRequest "Token has expired"), st)
      | .error .invalid => (.error (.badRequest "Invalid token"), st)
      | .ok claims =>
        match setVerified st claims.email with
        | none => (.error (.badRequest "Invalid token"), st)
        | some st' => (.ok "Email verified successfully", st')

/-- The message the Mail Notifier receives from
`sendEmailVerificationEmail(email, token)`: recipient, the subject
`Email Verification`, and the verification link built by
`generateVerificationLink` — `new URL('/verify-email', API_URL or
'http://localhost:8080')` with the token set as the `token` query parameter
(the token kept structured, since its string encoding lives in the library). -/
structure MailMessage where
  recipient : String
  subject : String
  linkBase : String
  linkPath : String
  linkToken : Token EmailClaims
  deriving Repr, DecidableEq

/-- Source `sendEmailVerificationEmail(email, token)` together with
`generateVerificationLink(token)`: the message handed to the Mail Notifier. -/
def sendEmailVerificationEmail (apiUrl : Option String) (email : String)
    (tok : Token EmailClaims) : MailMessage :=
  { recipient := email, subject := "Email Verification"
    linkBase := Option.getD apiUrl "http://localhost:8080"
    linkPath := "/verify-email", linkToken := tok }

/-- Modelled from the spec: `requestEmailVerification(email)` — the
orchestration combining `generateEmailVerificationToken` and
`sendEmailVerificationEmail`, which the HTTP layer wires together but whose
composition is not among the provided sources: issue the verification token
for the email and hand it to the Mail Notifier inside the verification link. -/
def requestEmailVerification (jwtSecret nodeEnv apiUrl : Option String)
    (st : Store) (email : String) (now : Nat) :
    Except AppError MailMessage :=
  match generateEmailVerificationToken jwtSecret nodeEnv st email now with
  | .error e => .error e
  | .ok tok => .ok (sendEmailVerificationEmail apiUrl email tok)

/-! ## Helper lemmas -/

theorem findByEmail_append_of_none (st l : Store) (e : String)
    (h : findByEmail st e = none) : findByEmail (st ++ l) e = findByEmail l e := by
  unfold findByEmail at h ⊢
  induction st with
  | nil => rfl
  | cons u us ih =>
    simp only [List.find?, List.cons_append] at h ⊢
    cases hu : (u.email == e) with
    | true => simp [hu] at h
    | false =>
      simp only [hu] at h ⊢
      exact ih h

theorem markVerified_email (e : String) (u : User) :
    (markVerified e u).email = u.email := by
  unfold markVerified
  by_cases h : u.email == e <;> simp [h]

theorem markVerified_idem (e : String) (u : User) :
    markVerified e (markVerified e u) = markVerified e u := by
  unfold markVerified
  by_cases h : u.email == e <;> simp [h]

/-! ## Claim theorems -/

/-- C1: registering with an email an existing stored user already has fails
with the duplicate-email `BadRequestException` and leaves the store as it was;
with a fresh email the duplicate-email error is never produced, and the flow
proceeds to hash the password and (when the store accepts the create) persist
the user record carrying that hash. -/
theorem register_duplicate_email (hash : String → String) (newId : String)
    (persistOk : Bool) (st : Store) (data : CreateUserDto) :
    (findByEmail st data.email ≠ none →
      create hash newId persistOk st data =
        (.error (.badRequest "The email address is already associated with an account."), st)) ∧
    (findByEmail st data.email = none →
      (create hash newId persistOk st data).1 ≠
        .error (.badRequest "The email address is already associated with an account.") ∧
      (persistOk = true →
        (create hash newId persistOk st data).2 =
          st ++ [{ id := newId, email := data.email, username := data.username
                   role := .user, password := hash data.password
                   emailIsVerified := false, refreshToken := none }])) := by
  unfold create
  cases h : findByEmail st data.email with
  | some u => simp [h]
  | none =>
    refine ⟨by simp, fun _ => ⟨?_, fun hp => by simp [hp]⟩⟩
    cases persistOk <;> simp

/-- Witness for C1 at concrete inputs: a store already holding `a@x.com`
rejects a second registration of `a@x.com` with the duplicate-email error, and
an empty store does not produce that error. -/
theorem register_duplicate_email_witness :
    (create (fun p => String.append "#" p) "id1" true
        [{ id := "id0", email := "a@x.com", username := "a", role := .user
           password := "#p", emailIsVerified := false, refreshToken := none }]
        { email := "a@x.com", username := "b", password := "q" } =
      (.error (.badRequest "The email address is already associated with an account."),
        [{ id := "id0", email := "a@x.com", username := "a", role := .user
           password := "#p", emailIsVerified := false, refreshToken := none }])) ∧
    ((create (fun p => String.append "#" p) "id1" true []
        { email := "a@x.com", username := "b", password := "q" }).1 ≠
      .error (.badRequest "The email address is already associated with an account.")) := by
  constructor
  · exact (register_duplicate_email (fun p => String.append "#" p) "id1" true _ _).1
      (by decide)
  · exact ((register_duplicate_email (fun p => String.append "#" p) "id1" true [] _).2
      rfl).1

/-- C2: for a fresh email (and a store create that succeeds), `create`
succeeds; the record it returns is `stripPassword` of the stored user, a shape
with no password field; and the record persisted for that email carries the
hash digest of the password, which differs from the plaintext whenever the
hash does not fix it. -/
theorem register_success_no_plaintext (hash : String → String) (newId : String)
    (st : Store) (data : CreateUserDto)
    (hfresh : findByEmail st data.email = none)
    (hhash : hash data.password ≠ data.password) :
    create hash newId true st data =
      (.ok { id := newId, email := data.email, username := data.username
             role := .user, emailIsVerified := false, refreshToken := none },
        st ++ [{ id := newId, email := data.email, username := data.username
                 role := .user, password := hash data.password
                 emailIsVerified := false, refreshToken := none }]) ∧
    (findByEmail (create hash newId true st data).2 data.email).map User.password =
      some (hash data.password) ∧
    (findByEmail (create hash newId true st data).2 data.email).map User.password ≠
      some data.password := by
  have hc : create hash newId true st data =
      (.ok { id := newId, email := data.email, username := data.username
             role := .user, emailIsVerified := false, refreshToken := none },
        st ++ [{ id := newId, email := data.email, username := data.username
                 role := .user, password := hash data.password
                 emailIsVerified := false, refreshToken := none }]) := by
    unfold create
    rw [hfresh]
    simp [stripPassword]
  refine ⟨hc, ?_, ?_⟩ <;>
    rw [hc] <;>
    rw [findByEmail_append_of_none st _ data.email hfresh] <;>
    simp [findByEmail, hhash]

/-- Witness for C2: registering `a@x.com` into the empty store with a hash
that prefixes `#` stores the digest `#q`, not the plaintext `q`. -/
theorem register_success_no_plaintext_witness :
    create (fun p => String.append "#" p) "id1" true []
        { email := "a@x.com", username := "b", password := "q" } =
      (.ok { id := "id1", email := "a@x.com", username := "b"
             role := .user, emailIsVerified := false, refreshToken := none },
        [{ id := "id1", email := "a@x.com", username := "b"
           role := .user, password := "#q"
           emailIsVerified := false, refreshToken := none }]) := by
  exact (register_success_no_plaintext (fun p => String.append "#" p) "id1" []
    { email := "a@x.com", username := "b", password := "q" } rfl (by decide)).1

/-- C3: verifying `issue(claims, ttl)` with the signing secret returns exactly
the issued claims while strictly before the expiry instant `issueTime + ttl`;
from that instant on it fails with the expired sub-kind; a signature made with
a different secret, or a malformed token, fails with the generic invalid
kind. -/
theorem token_issue_verify_roundtrip {α : Type} (claims : α) (secret : String)
    (ttl issueTime verifyTime : Nat) :
    (verifyTime < issueTime + ttl →
      jwtVerify (some (jwtSign claims secret ttl issueTime)) secret verifyTime =
        .ok claims) ∧
    (issueTime + ttl ≤ verifyTime →
      jwtVerify (some (jwtSign claims secret ttl issueTime)) secret verifyTime =
        .error .expired) ∧
    (∀ other : String, other ≠ secret →
      jwtVerify (some (jwtSign claims secret ttl issueTime)) other verifyTime =
        .error .invalid) ∧
    jwtVerify (none : Option (Token α)) secret verifyTime = .error .invalid := by
  unfold jwtVerify jwtSign
  refine ⟨fun h => ?_, fun h => ?_, fun other hne => ?_, rfl⟩
  · simp [Nat.not_le.mpr h]
  · simp [h]
  · have hso : secret ≠ other := Ne.symm hne
    simp [hso]

/-- Witness for C3: a token with claim `7`, ttl one hour, issued at time `0`,
verifies to `7` at time `10`, is expired at time `3600`, and is invalid under
the wrong secret and when malformed. -/
theorem token_issue_verify_roundtrip_witness :
    jwtVerify (some (jwtSign (7 : Nat) "s3cr3t" 3600 0)) "s3cr3t" 10 = .ok 7 ∧
    jwtVerify (some (jwtSign (7 : Nat) "s3cr3t" 3600 0)) "s3cr3t" 3600 =
      .error .expired ∧
    jwtVerify (some (jwtSign (7 : Nat) "s3cr3t" 3600 0)) "other" 10 =
      .error .invalid ∧
    jwtVerify (none : Option (Token Nat)) "s3cr3t" 10 = .error .invalid := by
  have h := token_issue_verify_roundtrip (7 : Nat) "s3cr3t" 3600 0
  exact ⟨(h 10).1 (by decide), (h 3600).2.1 (by decide),
    (h 10).2.2.1 "other" (by decide), (h 10).2.2.2⟩

theorem jwtVerify_some {α : Type} (t : Token α) (s : String) (now : Nat) :
    jwtVerify (some t) s now =
      if t.secret ≠ s then .error .invalid
      else if t.exp ≤ now then .error .expired
      else .ok t.claims := rfl

theorem jwtVerify_ok_inversion {α : Type} (t : Token α) (s : String) (now : Nat)
    (claims : α) (h : jwtVerify (some t) s now = .ok claims) :
    t.secret = s ∧ now < t.exp ∧ claims = t.claims := by
  rw [jwtVerify_some] at h
  by_cases hsec : t.secret = s
  · rw [if_neg (by simp [hsec])] at h
    by_cases hexp : t.exp ≤ now
    · rw [if_pos hexp] at h
      simp at h
    · rw [if_neg hexp] at h
      simp at h
      exact ⟨hsec, Nat.not_le.mp hexp, h.symm⟩
  · rw [if_pos hsec] at h
    simp at h

theorem verifyEmail_some (jwtSecret nodeEnv : Option String) (st : Store)
    (t : Token EmailClaims) (now : Nat) :
    verifyEmailVerificationToken jwtSecret nodeEnv st (some t) now =
      match secretResolve jwtSecret nodeEnv with
      | .error _ => (.error (.badRequest "Invalid token"), st)
      | .ok s =>
        match jwtVerify (some t) s now with
        | .error .expired => (.error (.badRequest "Token has expired"), st)
        | .error .invalid => (.error (.badRequest "Invalid token"), st)
        | .ok claims =>
          match setVerified st claims.email with
          | none => (.error (.badRequest "Invalid token"), st)
          | some st2 => (.ok "Email verified successfully", st2) := rfl

theorem verifyEmail_ok_inversion (jwtSecret nodeEnv : Option String) (st : Store)
    (t : Token EmailClaims) (now : Nat) (m : String) (st2 : Store)
    (h : verifyEmailVerificationToken jwtSecret nodeEnv st (some t) now =
      (.ok m, st2)) :
    ∃ s, secretResolve jwtSecret nodeEnv = .ok s ∧ t.secret = s ∧ now < t.exp ∧
      m = "Email verified successfully" ∧
      setVerified st t.claims.email = some st2 := by
  rw [verifyEmail_some] at h
  split at h
  · simp at h
  · rename_i s hs
    split at h
    · simp at h
    · simp at h
    · rename_i claims hjv
      obtain ⟨hsec, hlt, hcl⟩ := jwtVerify_ok_inversion t s now claims hjv
      split at h
      · simp at h
      · rename_i st3 hset
        simp only [Prod.mk.injEq, Except.ok.injEq] at h
        obtain ⟨hm, hst⟩ := h
        refine ⟨s, hs, hsec, hlt, hm.symm, ?_⟩
        rw [hcl] at hset
        rw [hset, hst]

theorem setVerified_idem (st : Store) (e : String) (st2 : Store)
    (h : setVerified st e = some st2) : setVerified st2 e = some st2 := by
  unfold setVerified at h ⊢
  by_cases hany : List.any st (fun u => u.email == e) = true
  · rw [if_pos hany] at h
    simp only [Option.some.injEq] at h
    subst h
    have hany2 : List.any (List.map (markVerified e) st)
        (fun u => u.email == e) = true := by
      rw [List.any_map]
      simpa [Function.comp, markVerified_email] using hany
    rw [if_pos hany2]
    rw [List.map_map]
    simp [Function.comp, markVerified_idem]
  · rw [if_neg hany] at h
    simp at h

/-- C4: `verifyEmail` rejects a malformed token with the generic
`Invalid token` error; a correctly signed token past its expiry fails with the
distinguishable `Token has expired` message; a token signed with the wrong
secret fails with the generic `Invalid token` message; and a token that
verifies marks the stored user named in the token's `email` claim as
email-verified. -/
theorem verifyEmail_classifies (jwtSecret nodeEnv : Option String) (st : Store)
    (t : Token EmailClaims) (now : Nat) (s : String) :
    verifyEmailVerificationToken jwtSecret nodeEnv st none now =
      (.error (.badRequest "Invalid token"), st) ∧
    (secretResolve jwtSecret nodeEnv = .ok s → t.secret = s → t.exp ≤ now →
      verifyEmailVerificationToken jwtSecret nodeEnv st (some t) now =
        (.error (.badRequest "Token has expired"), st)) ∧
    (secretResolve jwtSecret nodeEnv = .ok s → t.secret ≠ s →
      verifyEmailVerificationToken jwtSecret nodeEnv st (some t) now =
        (.error (.badRequest "Invalid token"), st)) ∧
    (secretResolve jwtSecret nodeEnv = .ok s → t.secret = s → now < t.exp →
      List.any st (fun u => u.email == t.claims.email) = true →
      (verifyEmailVerificationToken jwtSecret nodeEnv st (some t) now).1 =
        .ok "Email verified successfully" ∧
      ∀ u ∈ (verifyEmailVerificationToken jwtSecret nodeEnv st (some t) now).2,
        u.email = t.claims.email → u.emailIsVerified = true) := by
  refine ⟨rfl, fun hs hsec hexp => ?_, fun hs hsec => ?_, fun hs hsec hlt hany => ?_⟩
  · simp [verifyEmailVerificationToken, hs, jwtVerify, hsec, hexp]
  · simp [verifyEmailVerificationToken, hs, jwtVerify, hsec]
  · have hnle : ¬ t.exp ≤ now := Nat.not_le.mpr hlt
    have hres : verifyEmailVerificationToken jwtSecret nodeEnv st (some t) now =
        (.ok "Email verified successfully",
          List.map (markVerified t.claims.email) st) := by
      simp [verifyEmailVerificationToken, hs, jwtVerify, hsec, hnle,
        setVerified, hany]
    rw [hres]
    refine ⟨rfl, fun u hu hue => ?_⟩
    rcases List.mem_map.mp hu with ⟨v, hv, rfl⟩
    by_cases hve : (v.email == t.claims.email) = true
    · unfold markVerified
      rw [if_pos hve]
    · have hid : markVerified t.claims.email v = v := by
        unfold markVerified
        rw [if_neg hve]
      rw [hid] at hue
      exact absurd (beq_iff_eq.mpr hue) hve

/-- Witness for C4: with secret `s`, a store holding an unverified
`a@x.com` user, and a token for `a@x.com` expiring at `3600`: verification at
time `10` succeeds, and at time `3600` fails with `Token has expired`. -/
theorem verifyEmail_classifies_witness :
    ((verifyEmailVerificationToken (some "s") none
        [{ id := "id0", email := "a@x.com", username := "a", role := .user
           password := "#p", emailIsVerified := false, refreshToken := none }]
        (some { claims := { email := "a@x.com" }, iat := 0, exp := 3600,
                secret := "s" }) 10).1 = .ok "Email verified successfully") ∧
    (verifyEmailVerificationToken (some "s") none
        [{ id := "id0", email := "a@x.com", username := "a", role := .user
           password := "#p", emailIsVerified := false, refreshToken := none }]
        (some { claims := { email := "a@x.com" }, iat := 0, exp := 3600,
                secret := "s" }) 3600 =
      (.error (.badRequest "Token has expired"),
        [{ id := "id0", email := "a@x.com", username := "a", role := .user
           password := "#p", emailIsVerified := false, refreshToken := none }])) := by
  constructor
  · exact ((verifyEmail_classifies (some "s") none
      [{ id := "id0", email := "a@x.com", username := "a", role := .user
         password := "#p", emailIsVerified := false, refreshToken := none }]
      { claims := { email := "a@x.com" }, iat := 0, exp := 3600, secret := "s" }
      10 "s").2.2.2 rfl rfl (by decide) (by decide)).1
  · exact (verifyEmail_classifies (some "s") none
      [{ id := "id0", email := "a@x.com", username := "a", role := .user
         password := "#p", emailIsVerified := false, refreshToken := none }]
      { claims := { email := "a@x.com" }, iat := 0, exp := 3600, secret := "s" }
      3600 "s").2.1 rfl rfl (by decide)

/-- C5 counterexample: not every operation needing the secret fails hard in a
production environment with the secret absent. `verifyEmailVerificationToken`
with `JWT_SECRET` unset and `NODE_ENV = production`, on a one-user store and a
concrete well-formed token, fails with the generic BadRequest `Invalid token`
— the `InternalServerErrorException` thrown by `secret()` is swallowed by the
catch — and never surfaces the hard configuration error. -/
theorem secret_resolution_counterexample :
    (verifyEmailVerificationToken none (some "production")
        [{ id := "id0", email := "a@x.com", username := "a", role := .user
           password := "#p", emailIsVerified := false, refreshToken := none }]
        (some { claims := { email := "a@x.com" }, iat := 0, exp := 3600,
                secret := "s" }) 10).1 =
      .error (.badRequest "Invalid token") ∧
    (verifyEmailVerificationToken none (some "production")
        [{ id := "id0", email := "a@x.com", username := "a", role := .user
           password := "#p", emailIsVerified := false, refreshToken := none }]
        (some { claims := { email := "a@x.com" }, iat := 0, exp := 3600,
                secret := "s" }) 10).1 ≠
      .error (.internalServerError "JWT secret is not set") := by
  constructor
  · rfl
  · intro h
    rw [show (verifyEmailVerificationToken none (some "production")
        [{ id := "id0", email := "a@x.com", username := "a", role := .user
           password := "#p", emailIsVerified := false, refreshToken := none }]
        (some { claims := { email := "a@x.com" }, iat := 0, exp := 3600,
                secret := "s" }) 10).1 =
      Except.error (AppError.badRequest "Invalid token") from rfl] at h
    simp at h

/-- C5, amended: when `JWT_SECRET` is absent in a production environment,
`secret()` throws the hard `InternalServerErrorException` and
`generateEmailVerificationToken` propagates it, while
`verifyEmailVerificationToken` still fails on every call but with its catch
masking the missing-secret error as the generic BadRequest `Invalid token`;
when the secret is absent outside production the fixed `default-secret`
fallback is used; when the secret is configured, the configured value is the
one used. -/
theorem secret_resolution (jwtSecret nodeEnv : Option String) (s : String) :
    (jwtSecret = none → nodeEnv = some "production" →
      secretResolve jwtSecret nodeEnv =
        .error (.internalServerError "JWT secret is not set") ∧
      (∀ (st : Store) (email : String) (now : Nat), findByEmail st email ≠ none →
        generateEmailVerificationToken jwtSecret nodeEnv st email now =
          .error (.internalServerError "JWT secret is not set")) ∧
      (∀ (st : Store) (t : Token EmailClaims) (now : Nat),
        verifyEmailVerificationToken jwtSecret nodeEnv st (some t) now =
          (.error (.badRequest "Invalid token"), st))) ∧
    (jwtSecret = none → nodeEnv ≠ some "production" →
      secretResolve jwtSecret nodeEnv = .ok "default-secret") ∧
    (jwtSecret = some s → secretResolve jwtSecret nodeEnv = .ok s) := by
  refine ⟨fun hn hp => ?_, fun hn hp => ?_, fun hcfg => ?_⟩
  · subst hn; subst hp
    have hsec : secretResolve none (some "production") =
        .error (.internalServerError "JWT secret is not set") := by
      unfold secretResolve
      rw [if_neg (by simp)]
    refine ⟨hsec, fun st email now hfind => ?_, fun st t now => ?_⟩
    · unfold generateEmailVerificationToken
      cases hf : findByEmail st email with
      | none => exact absurd hf hfind
      | some u => rw [hsec]
    · rw [verifyEmail_some, hsec]
  · subst hn
    unfold secretResolve
    rw [if_pos hp]
  · subst hcfg
    rfl

/-- Witness for C5 (amended): absent secret in production fails hard through
`secret()` and token generation on a one-user store, while token verification
fails with the masked `Invalid token`; absent secret outside production yields
`default-secret`; a configured secret `abc` is returned as is. -/
theorem secret_resolution_witness :
    secretResolve none (some "production") =
      .error (.internalServerError "JWT secret is not set") ∧
    generateEmailVerificationToken none (some "production")
        [{ id := "id0", email := "a@x.com", username := "a", role := .user
           password := "#p", emailIsVerified := false, refreshToken := none }]
        "a@x.com" 0 =
      .error (.internalServerError "JWT secret is not set") ∧
    verifyEmailVerificationToken none (some "production")
        [{ id := "id0", email := "a@x.com", username := "a", role := .user
           password := "#p", emailIsVerified := false, refreshToken := none }]
        (some { claims := { email := "a@x.com" }, iat := 0, exp := 3600,
                secret := "s" }) 10 =
      (.error (.badRequest "Invalid token"),
        [{ id := "id0", email := "a@x.com", username := "a", role := .user
           password := "#p", emailIsVerified := false, refreshToken := none }]) ∧
    secretResolve none none = .ok "default-secret" ∧
    secretResolve (some "abc") (some "production") = .ok "abc" := by
  have h := secret_resolution none (some "production") "abc"
  have h2 := secret_resolution none none "abc"
  have h3 := secret_resolution (some "abc") (some "production") "abc"
  exact ⟨(h.1 rfl rfl).1,
    (h.1 rfl rfl).2.1 _ "a@x.com" 0 (by decide),
    (h.1 rfl rfl).2.2 _
      { claims := { email := "a@x.com" }, iat := 0, exp := 3600, secret := "s" }
      10,
    h2.2.1 rfl (by decide),
    h3.2.2 rfl⟩

/-- C6: whenever `create` returns an error — the duplicate-email rejection or
the store refusing the create after hashing — the store it returns is exactly
the store it was given: no partial user record is added. -/
theorem register_failure_leaves_store (hash : String → String) (newId : String)
    (persistOk : Bool) (st : Store) (data : CreateUserDto) (e : AppError)
    (h : (create hash newId persistOk st data).1 = .error e) :
    (create hash newId persistOk st data).2 = st := by
  unfold create at h ⊢
  cases hf : findByEmail st data.email with
  | some u => rfl
  | none =>
    rw [hf] at h
    cases persistOk with
    | true => simp at h
    | false => rfl

/-- Witness for C6: the persistence-failure register on the empty store and
the duplicate-email register on a one-user store both leave the store
unchanged. -/
theorem register_failure_leaves_store_witness :
    (create (fun p => String.append "#" p) "id1" false []
        { email := "a@x.com", username := "b", password := "q" }).2 = [] ∧
    (create (fun p => String.append "#" p) "id1" true
        [{ id := "id0", email := "a@x.com", username := "a", role := .user
           password := "#p", emailIsVerified := false, refreshToken := none }]
        { email := "a@x.com", username := "b", password := "q" }).2 =
      [{ id := "id0", email := "a@x.com", username := "a", role := .user
         password := "#p", emailIsVerified := false, refreshToken := none }] := by
  constructor
  · exact register_failure_leaves_store (fun p => String.append "#" p) "id1" false []
      { email := "a@x.com", username := "b", password := "q" }
      (.badRequest "Error creating user") rfl
  · exact register_failure_leaves_store (fun p => String.append "#" p) "id1" true
      [{ id := "id0", email := "a@x.com", username := "a", role := .user
         password := "#p", emailIsVerified := false, refreshToken := none }]
      { email := "a@x.com", username := "b", password := "q" }
      (.badRequest "The email address is already associated with an account.")
      rfl

/-- C7: requesting email verification for an email with no stored user fails
with the `User not found` error; for a stored user (and a resolvable secret)
it hands the Mail Notifier a message to that email whose verification link on
the `/verify-email` path embeds a token carrying the single claim `email`
with a one-hour (3600 s) expiry. -/
theorem requestEmailVerification_spec (jwtSecret nodeEnv apiUrl : Option String)
    (st : Store) (email : String) (now : Nat) (s : String) :
    (findByEmail st email = none →
      requestEmailVerification jwtSecret nodeEnv apiUrl st email now =
        .error (.badRequest "User not found")) ∧
    (findByEmail st email ≠ none → secretResolve jwtSecret nodeEnv = .ok s →
      requestEmailVerification jwtSecret nodeEnv apiUrl st email now =
        .ok { recipient := email, subject := "Email Verification"
              linkBase := Option.getD apiUrl "http://localhost:8080"
              linkPath := "/verify-email"
              linkToken := { claims := { email := email }, iat := now
                             exp := now + 3600, secret := s } }) := by
  constructor
  · intro h
    unfold requestEmailVerification generateEmailVerificationToken
    rw [h]
  · intro h hs
    unfold requestEmailVerification generateEmailVerificationToken
    cases hf : findByEmail st email with
    | none => exact absurd hf h
    | some u => rw [hs]; rfl

/-- Witness for C7: on a one-user store, requesting verification for the
unknown `b@x.com` fails with `User not found`, while for the stored
`a@x.com` the notifier message carries the expected link and token. -/
theorem requestEmailVerification_spec_witness :
    requestEmailVerification (some "s") none none
        [{ id := "id0", email := "a@x.com", username := "a", role := .user
           password := "#p", emailIsVerified := false, refreshToken := none }]
        "b@x.com" 5 = .error (.badRequest "User not found") ∧
    requestEmailVerification (some "s") none none
        [{ id := "id0", email := "a@x.com", username := "a", role := .user
           password := "#p", emailIsVerified := false, refreshToken := none }]
        "a@x.com" 5 =
      .ok { recipient := "a@x.com", subject := "Email Verification"
            linkBase := "http://localhost:8080", linkPath := "/verify-email"
            linkToken := { claims := { email := "a@x.com" }, iat := 5
                           exp := 3605, secret := "s" } } := by
  constructor
  · exact (requestEmailVerification_spec (some "s") none none
      [{ id := "id0", email := "a@x.com", username := "a", role := .user
         password := "#p", emailIsVerified := false, refreshToken := none }]
      "b@x.com" 5 "s").1 (by decide)
  · exact (requestEmailVerification_spec (some "s") none none
      [{ id := "id0", email := "a@x.com", username := "a", role := .user
         password := "#p", emailIsVerified := false, refreshToken := none }]
      "a@x.com" 5 "s").2 (by decide) rfl

/-- C8: `verifyEmail` is idempotent on success — if a run at time `now`
succeeds producing store `st2`, a second run with the same token at any time
`now2` still before the token's expiry succeeds with the same message and
leaves the store at `st2`. -/
theorem verifyEmail_idempotent (jwtSecret nodeEnv : Option String) (st : Store)
    (t : Token EmailClaims) (now now2 : Nat) (m : String) (st2 : Store)
    (h1 : verifyEmailVerificationToken jwtSecret nodeEnv st (some t) now =
      (.ok m, st2))
    (h2 : now2 < t.exp) :
    verifyEmailVerificationToken jwtSecret nodeEnv st2 (some t) now2 =
      (.ok m, st2) := by
  obtain ⟨s, hs, hsec, _, hm, hset⟩ :=
    verifyEmail_ok_inversion jwtSecret nodeEnv st t now m st2 h1
  have hnle : ¬ t.exp ≤ now2 := Nat.not_le.mpr h2
  have hidem := setVerified_idem st t.claims.email st2 hset
  subst hm
  simp [verifyEmailVerificationToken, hs, jwtVerify, hsec, hnle, hidem]

/-- Witness for C8: verifying the `a@x.com` token at time `10` flips the flag;
re-verifying at time `20` on the resulting store succeeds and leaves the store
identical. -/
theorem verifyEmail_idempotent_witness :
    verifyEmailVerificationToken (some "s") none
        [{ id := "id0", email := "a@x.com", username := "a", role := .user
           password := "#p", emailIsVerified := true, refreshToken := none }]
        (some { claims := { email := "a@x.com" }, iat := 0, exp := 3600,
                secret := "s" }) 20 =
      (.ok "Email verified successfully",
        [{ id := "id0", email := "a@x.com", username := "a", role := .user
           password := "#p", emailIsVerified := true, refreshToken := none }]) := by
  exact verifyEmail_idempotent (some "s") none
    [{ id := "id0", email := "a@x.com", username := "a", role := .user
       password := "#p", emailIsVerified := false, refreshToken := none }]
    { claims := { email := "a@x.com" }, iat := 0, exp := 3600, secret := "s" }
    10 20 "Email verified successfully"
    [{ id := "id0", email := "a@x.com", username := "a", role := .user
       password := "#p", emailIsVerified := true, refreshToken := none }]
    rfl (by decide)

end Library
